import Mathlib

set_option maxRecDepth 10000

/-!
Shallow embedding of the `paynow` Rust crate (Paynow Zimbabwe HTTP API
client).  Strings model Rust `String`/`Display` output; machine words are
`Nat` reduced modulo `2 ^ 64` where the source relies on wrap-around;
fallible Rust functions returning `Result` are embedded as `Except`.

The SHA-512 digest below embeds the `sha2::Sha512` function used by
`Client::hash` (padding, message schedule and compression from FIPS 180-4),
operating on the UTF-8 bytes of the hashed string, with the digest rendered
as uppercase hexadecimal exactly as Rust's `format!("{:X}", …)` renders it.
-/

namespace Paynow

/-- Reduce a natural number to a 64-bit word. -/
def w64 (n : Nat) : Nat := n % 18446744073709551616

/-- Right rotation of a 64-bit word by `b` bits. -/
def rotr (b n : Nat) : Nat := w64 ((n >>> b) ||| (n <<< (64 - b)))

/-- SHA-512 big sigma0. -/
def bsig0 (n : Nat) : Nat := rotr 28 n ^^^ rotr 34 n ^^^ rotr 39 n

/-- SHA-512 big sigma1. -/
def bsig1 (n : Nat) : Nat := rotr 14 n ^^^ rotr 18 n ^^^ rotr 41 n

/-- SHA-512 small sigma0. -/
def ssig0 (n : Nat) : Nat := rotr 1 n ^^^ rotr 8 n ^^^ (n >>> 7)

/-- SHA-512 small sigma1. -/
def ssig1 (n : Nat) : Nat := rotr 19 n ^^^ rotr 61 n ^^^ (n >>> 6)

/-- SHA-512 choose function. -/
def chFn (e f g : Nat) : Nat := (e &&& f) ^^^ ((e ^^^ 18446744073709551615) &&& g)

/-- SHA-512 majority function. -/
def majFn (a b c : Nat) : Nat := (a &&& b) ^^^ (a &&& c) ^^^ (b &&& c)

/-- The eight initial SHA-512 hash values. -/
def sha512H0 : List Nat :=
  [7640891576956012808, 13503953896175478587, 4354685564936845355,
   11912009170470909681, 5840696475078001361, 11170449401992604703,
   2270897969802886507, 6620516959819538809]

/-- The eighty SHA-512 round constants. -/
def sha512K : List Nat :=
  [4794697086780616226, 8158064640168781261, 13096744586834688815,
   16840607885511220156, 4131703408338449720, 6480981068601479193,
   10538285296894168987, 12329834152419229976, 15566598209576043074,
   1334009975649890238, 2608012711638119052, 6128411473006802146,
   8268148722764581231, 9286055187155687089, 11230858885718282805,
   13951009754708518548, 16472876342353939154, 17275323862435702243,
   1135362057144423861, 2597628984639134821, 3308224258029322869,
   5365058923640841347, 6679025012923562964, 8573033837759648693,
   10970295158949994411, 12119686244451234320, 12683024718118986047,
   13788192230050041572, 14330467153632333762, 15395433587784984357,
   489312712824947311, 1452737877330783856, 2861767655752347644,
   3322285676063803686, 5560940570517711597, 5996557281743188959,
   7280758554555802590, 8532644243296465576, 9350256976987008742,
   10552545826968843579, 11727347734174303076, 12113106623233404929,
   14000437183269869457, 14369950271660146224, 15101387698204529176,
   15463397548674623760, 17586052441742319658, 1182934255886127544,
   1847814050463011016, 2177327727835720531, 2830643537854262169,
   3796741975233480872, 4115178125766777443, 5681478168544905931,
   6601373596472566643, 7507060721942968483, 8399075790359081724,
   8693463985226723168, 9568029438360202098, 10144078919501101548,
   10430055236837252648, 11840083180663258601, 13761210420658862357,
   14299343276471374635, 14566680578165727644, 15097957966210449927,
   16922976911328602910, 17689382322260857208, 500013540394364858,
   748580250866718886, 1242879168328830382, 1977374033974150939,
   2944078676154940804, 3659926193048069267, 4368137639120453308,
   4836135668995329356, 5532061633213252278, 6448918945643986474,
   6902733635092675308, 7801388544844847127]

/-- Big-endian byte rendering of `n` on `k` bytes (most significant first). -/
def beBytes : Nat → Nat → List Nat
  | 0, _ => []
  | k + 1, n => beBytes k (n >>> 8) ++ [n % 256]

/-- SHA-512 padding: append `0x80`, zero bytes up to 112 mod 128, then the
bit length on sixteen big-endian bytes. -/
def padMsg (m : List Nat) : List Nat :=
  m ++ [128] ++ List.replicate ((239 - m.length % 128) % 128) 0 ++ beBytes 16 (8 * m.length)

/-- Group eight consecutive bytes (big-endian) into 64-bit words. -/
def toWords : List Nat → List Nat
  | b0 :: b1 :: b2 :: b3 :: b4 :: b5 :: b6 :: b7 :: rest =>
      (((((((b0 <<< 8 ||| b1) <<< 8 ||| b2) <<< 8 ||| b3) <<< 8 ||| b4) <<< 8 ||| b5) <<< 8
          ||| b6) <<< 8 ||| b7) :: toWords rest
  | _ => []

/-- Extend the sixteen block words to the full 80-entry message schedule,
appending `count` further words. -/
def extendW (ws : List Nat) : Nat → List Nat
  | 0 => ws
  | count + 1 =>
      let n := ws.length
      let next := w64 (ssig1 (ws.getD (n - 2) 0) + ws.getD (n - 7) 0 +
        ssig0 (ws.getD (n - 15) 0) + ws.getD (n - 16) 0)
      extendW (ws ++ [next]) count

/-- Working state of the SHA-512 compression loop. -/
structure ShaState where
  a : Nat
  b : Nat
  c : Nat
  d : Nat
  e : Nat
  f : Nat
  g : Nat
  h : Nat

/-- One SHA-512 round: `kw` is the round constant paired with the schedule word. -/
def shaRound (st : ShaState) (kw : Nat × Nat) : ShaState :=
  let t1 := w64 (st.h + bsig1 st.e + chFn st.e st.f st.g + kw.1 + kw.2)
  let t2 := w64 (bsig0 st.a + majFn st.a st.b st.c)
  ⟨w64 (t1 + t2), st.a, st.b, st.c, w64 (st.d + t1), st.e, st.f, st.g⟩

/-- Compress one 128-byte block into the running hash values. -/
def compress (hs : List Nat) (block : List Nat) : List Nat :=
  let ws := extendW (toWords block) 64
  let st := (sha512K.zip ws).foldl shaRound
    ⟨hs.getD 0 0, hs.getD 1 0, hs.getD 2 0, hs.getD 3 0,
     hs.getD 4 0, hs.getD 5 0, hs.getD 6 0, hs.getD 7 0⟩
  [w64 (hs.getD 0 0 + st.a), w64 (hs.getD 1 0 + st.b), w64 (hs.getD 2 0 + st.c),
   w64 (hs.getD 3 0 + st.d), w64 (hs.getD 4 0 + st.e), w64 (hs.getD 5 0 + st.f),
   w64 (hs.getD 6 0 + st.g), w64 (hs.getD 7 0 + st.h)]

/-- Fold `compress` over `count` leading 128-byte blocks of `m`. -/
def foldBlocks (hs : List Nat) (m : List Nat) : Nat → List Nat
  | 0 => hs
  | count + 1 => foldBlocks (compress hs (m.take 128)) (m.drop 128) count

/-- SHA-512 of a byte list: the 64 digest bytes. -/
def sha512 (m : List Nat) : List Nat :=
  let padded := padMsg m
  (foldBlocks sha512H0 padded (padded.length / 128)).flatMap (beBytes 8)

/-- UTF-8 encoding of one character. -/
def utf8Char (c : Char) : List Nat :=
  let n := c.toNat
  if n < 128 then [n]
  else if n < 2048 then [192 + n / 64, 128 + n % 64]
  else if n < 65536 then [224 + n / 4096, 128 + (n / 64) % 64, 128 + n % 64]
  else [240 + n / 262144, 128 + (n / 4096) % 64, 128 + (n / 64) % 64, 128 + n % 64]

/-- UTF-8 bytes of a string, as Rust hashes them. -/
def utf8Bytes (s : String) : List Nat := s.data.flatMap utf8Char

/-- Uppercase hexadecimal digit for a nibble. -/
def hexDigit (n : Nat) : Char :=
  (['0', '1', '2', '3', '4', '5', '6', '7', '8', '9',
    'A', 'B', 'C', 'D', 'E', 'F']).getD n '0'

/-- Render a byte list as uppercase hexadecimal, two digits per byte, as
Rust's `format!("{:X}", digest)` does. -/
def hexUpper (bs : List Nat) : String :=
  ⟨bs.flatMap fun b => [hexDigit (b / 16), hexDigit (b % 16)]⟩

/-- SHA-512 of a string's UTF-8 bytes, rendered as uppercase hexadecimal. -/
def sha512Hex (s : String) : String := hexUpper (sha512 (utf8Bytes s))

/-- The Paynow client (src/src/lib.rs, `Client`): merchant id and the
integration key, whose UUID renders to `key` when displayed.  The transport
handle and base URL play no role in the signing logic embedded here. -/
structure Client where
  id : Nat
  key : String

/-- Embedding of `Client::hash` (src/src/lib.rs lines 228-236): feed
`format!("{msg}{key}")` to SHA-512 and render the digest as uppercase hex. -/
def clientHash (c : Client) (msg : String) : String := sha512Hex (msg ++ c.key)

/-- A form-url-encoded response body, as its ordered list of key/value pairs. -/
abbrev FormBody := List (String × String)

/-- Embedding of the crate's `Error` enum (src/src/lib.rs), restricted to the
variants the embedded operations can produce.  `response` carries the HTTP
status code as a number (`reqwest::StatusCode::OK` is 200) and
`unexpectedResponse` carries the raw form body that failed to decode. -/
inductive Error
  | amountOverflow (amount : String)
  | invalidAmount (amount : String)
  | invalidId (id : Nat)
  | insufficientBalance
  | hashMismatch (msg : String)
  | notFound (merchantTrace : String)
  | response (code : Nat) (msg : String)
  | unexpectedResponse (body : FormBody)
deriving DecidableEq, BEq

/-- Embedding of `Client::validate_hash` (src/src/lib.rs lines 238-244):
recompute the keyed digest of `msg` and compare; a mismatch is the
`HashMismatch` error carrying the message that was hashed. -/
def validateHash (c : Client) (hash msg : String) : Except Error Unit :=
  if hash = clientHash c msg then Except.ok () else Except.error (Error.hashMismatch msg)

/-- Embedding of the `Status` enum (src/src/status.rs lines 131-159). -/
inductive Status
  | created
  | cancelled
  | sent
  | awaitingDelivery
  | delivered
  | paid
  | disputed
  | refunded
deriving DecidableEq, BEq

/-- Display impl of `Status` (src/src/status.rs lines 161-178), used when the
status enters a canonical string. -/
def Status.display : Status → String
  | .paid => "Paid"
  | .awaitingDelivery => "Awaiting Delivery"
  | .delivered => "Delivered"
  | .created => "Created"
  | .sent => "Sent"
  | .cancelled => "Cancelled"
  | .disputed => "Disputed"
  | .refunded => "Refunded"

/-- Wire form of each `Status` variant under the derived serde impls: the
variant name, with `AwaitingDelivery` renamed to "Awaiting Delivery". -/
def Status.wireName : Status → String
  | .created => "Created"
  | .cancelled => "Cancelled"
  | .sent => "Sent"
  | .awaitingDelivery => "Awaiting Delivery"
  | .delivered => "Delivered"
  | .paid => "Paid"
  | .disputed => "Disputed"
  | .refunded => "Refunded"

/-- Deserialization of a `Status` from its wire string under the derived
serde impl: only the (possibly renamed) variant names are accepted. -/
def Status.ofWire (s : String) : Option Status :=
  if s = "Created" then some .created
  else if s = "Cancelled" then some .cancelled
  else if s = "Sent" then some .sent
  else if s = "Awaiting Delivery" then some .awaitingDelivery
  else if s = "Delivered" then some .delivered
  else if s = "Paid" then some .paid
  else if s = "Disputed" then some .disputed
  else if s = "Refunded" then some .refunded
  else none

/-- Calendar date standing for `time::Date` (only its `%d%b%Y` rendering is
used by the crate). -/
structure PDate where
  year : Nat
  month : Nat
  day : Nat
deriving DecidableEq, BEq

/-- Abbreviated English month name, as the `%b` specifier renders it. -/
def monthAbbrev : Nat → String
  | 1 => "Jan"
  | 2 => "Feb"
  | 3 => "Mar"
  | 4 => "Apr"
  | 5 => "May"
  | 6 => "Jun"
  | 7 => "Jul"
  | 8 => "Aug"
  | 9 => "Sep"
  | 10 => "Oct"
  | 11 => "Nov"
  | 12 => "Dec"
  | _ => ""

/-- Zero-padded two-digit rendering, as the `%d` specifier renders the day. -/
def pad2 (n : Nat) : String := if n < 10 then "0" ++ toString n else toString n

/-- Zero-padded four-digit rendering, as the `%Y` specifier renders the year. -/
def pad4 (n : Nat) : String :=
  if n < 10 then "000" ++ toString n
  else if n < 100 then "00" ++ toString n
  else if n < 1000 then "0" ++ toString n
  else toString n

/-- Rendering of `expiry.format("%d%b%Y")` (src/src/status.rs line 78): the
`DDMonYYYY` date form, e.g. `05Jan2024`. -/
def formatDMY (d : PDate) : String := pad2 d.day ++ monthAbbrev d.month ++ pad4 d.year

/-- Embedding of `Token` (src/src/status.rs lines 110-115). -/
structure Token where
  token : String
  expiry : PDate
deriving DecidableEq, BEq

/-- Embedding of the `Update` status message (src/src/status.rs lines 13-25).
`amount` is the Display form of the `rust_decimal` amount and `poll_url` the
Display form of the URL. -/
structure Update where
  reference : String
  paynow_reference : Nat
  amount : String
  status : Status
  poll_url : String
  token : Option Token
  hash : String
deriving DecidableEq, BEq

/-- The canonical string `Update::validate` hashes (src/src/status.rs lines
64-84): reference, paynow reference, amount, status, poll URL, then the token
followed by its `%d%b%Y` expiry when present, or the empty string. -/
def updateCanonical (u : Update) : String :=
  u.reference ++ toString u.paynow_reference ++ u.amount ++ u.status.display ++ u.poll_url ++
    (match u.token with
     | some t => t.token ++ formatDMY t.expiry
     | none => "")

/-- Embedding of `Update::validate` (src/src/status.rs lines 64-84). -/
def Update.validate (u : Update) (c : Client) : Except Error Unit :=
  validateHash c u.hash (updateCanonical u)

/-- Embedding of the `Payment` request (src/src/payment/mod.rs lines 33-50).
The `status` field of the source is the sentinel unit type `Message`, whose
Display form is the literal "Message"; it carries no data and is inlined as
that literal in the canonicalization below. -/
structure Payment where
  id : Nat
  reference : String
  amount : String
  additional_info : Option String
  return_url : Option String
  result_url : String
  auth_email : Option String
  tokenize : Option Bool
  merchant_trace : Option String
deriving DecidableEq, BEq

/-- Embedding of the `concat_payment!` helper (src/src/payment/mod.rs lines
5-20): id, reference, amount, additionalinfo, returnurl, resulturl,
authemail, tokenize, merchanttrace, status — directly adjacent, absent
options rendered as the empty string, `tokenize` via bool `to_string`, the
`status` sentinel displaying as "Message". -/
def concatPayment (p : Payment) : String :=
  toString p.id ++ p.reference ++ p.amount ++ p.additional_info.getD "" ++
    p.return_url.getD "" ++ p.result_url ++ p.auth_email.getD "" ++
    (match p.tokenize with
     | some b => toString b
     | none => "") ++
    p.merchant_trace.getD "" ++ "Message"

/-- The trailing fields of the standard canonical string: everything the
`concat_payment!` helper emits after the merchant id. -/
def concatPaymentTail (p : Payment) : String :=
  p.reference ++ p.amount ++ p.additional_info.getD "" ++
    p.return_url.getD "" ++ p.result_url ++ p.auth_email.getD "" ++
    (match p.tokenize with
     | some b => toString b
     | none => "") ++
    p.merchant_trace.getD "" ++ "Message"

/-- Embedding of `Card` (src/src/payment/express.rs lines 124-134). -/
structure Card where
  number : String
  name : String
  cvv : String
  expiry : String
deriving DecidableEq, BEq

/-- Embedding of `Address` (src/src/payment/express.rs lines 136-148);
`country` is the country's long name, which is what enters the canonical
string. -/
structure Address where
  line1 : String
  line2 : Option String
  city : String
  province : Option String
  country : String
deriving DecidableEq, BEq

/-- Embedding of `express::Method` (src/src/payment/express.rs lines 33-49). -/
inductive Method
  | ecocash (phone : String)
  | onemoney (phone : String)
  | visaOrMastercard (card : Card) (address : Address) (token : String)
deriving DecidableEq, BEq

/-- Embedding of `Method::name` (src/src/payment/express.rs lines 52-58). -/
def Method.name : Method → String
  | .ecocash _ => "ecocash"
  | .onemoney _ => "onemoney"
  | .visaOrMastercard _ _ _ => "vmc"

/-- Embedding of `MethodArgs` (src/src/payment/express.rs lines 77-90), whose
Default impl makes every field the empty string. -/
structure MethodArgs where
  phone : String := ""
  number : String := ""
  name : String := ""
  cvv : String := ""
  expiry : String := ""
  line1 : String := ""
  line2 : String := ""
  city : String := ""
  province : String := ""
  country : String := ""
  token : String := ""
deriving DecidableEq, BEq

/-- Embedding of `From<&Method> for MethodArgs` (src/src/payment/express.rs
lines 92-122). -/
def methodArgs : Method → MethodArgs
  | .ecocash phone => { phone := phone }
  | .onemoney phone => { phone := phone }
  | .visaOrMastercard card address token =>
      { token := token, number := card.number, name := card.name, cvv := card.cvv,
        expiry := card.expiry, line1 := address.line1, line2 := address.line2.getD "",
        city := address.city, province := address.province.getD "",
        country := address.country }

/-- The method-field block of `concat_express_payment!`
(src/src/payment/express.rs lines 7-20): phone, number, name, cvv, expiry,
line1, line2, city, province, country, token, adjacent. -/
def concatMethodArgs (a : MethodArgs) : String :=
  a.phone ++ a.number ++ a.name ++ a.cvv ++ a.expiry ++ a.line1 ++ a.line2 ++
    a.city ++ a.province ++ a.country ++ a.token

/-- Embedding of the `concat_express_payment!` helper
(src/src/payment/express.rs lines 1-23): the method name, then the standard
payment canonical string, then the method fields. -/
def concatExpressPayment (m : Method) (p : Payment) : String :=
  m.name ++ concatPayment p ++ concatMethodArgs (methodArgs m)

/-- The digest a standard payment submission signs
(src/src/payment/mod.rs line 97). -/
def paymentRequestHash (c : Client) (p : Payment) : String :=
  clientHash c (concatPayment p)

/-- The digest an express payment submission signs
(src/src/payment/express.rs lines 188-192). -/
def expressRequestHash (c : Client) (m : Method) (p : Payment) : String :=
  clientHash c (concatExpressPayment m p)

/-- Embedding of `payment::error::Error` (src/src/payment/mod.rs
lines 173-180). -/
inductive PaymentError
  | invalidId
  | invalidAmount
  | amountOverflow
  | insufficientBalance
  | response (msg : String)
deriving DecidableEq, BEq

/-- Embedding of `impl From<Response> for Error` (src/src/payment/mod.rs
lines 189-199): the fixed vendor-message classification table. -/
def classifyVendorError (msg : String) : PaymentError :=
  if msg = "Invalid Id." then .invalidId
  else if msg = "Invalid amount field." then .invalidAmount
  else if msg = "Conversion overflows." then .amountOverflow
  else if msg = "Insufficient balance" then .insufficientBalance
  else .response msg

/-- Decode of `payment::error::Response` (src/src/payment/mod.rs lines
182-187) from a form body: the `status` field must be the literal "Error"
and an `error` field must be present; serde ignores unknown fields. -/
def decodeVendorError (body : FormBody) : Option String :=
  match body.lookup "status", body.lookup "error" with
  | some s, some e => if s = "Error" then some e else none
  | _, _ => none

/-- Decode of the local `NotFound` shape of `Client::trace_payment`
(src/src/lib.rs lines 175-179): the `status` field must be the literal
"NotFound" (the only string `status::NotFound` deserializes from) and a
`hash` field must be present. -/
def decodeNotFound (body : FormBody) : Option String :=
  match body.lookup "status", body.lookup "hash" with
  | some s, some h => if s = "NotFound" then some h else none
  | _, _ => none

/-- Error mapping of the standard and express payment submissions
(src/src/payment/mod.rs lines 103-119 and src/src/payment/express.rs lines
198-218): every classified kind is surfaced, `Response` with code 200. -/
def paymentErrMap (c : Client) (amount : String) (e : Error) : Error :=
  match e with
  | .unexpectedResponse body =>
    match decodeVendorError body with
    | some m =>
      match classifyVendorError m with
      | .invalidId => .invalidId c.id
      | .amountOverflow => .amountOverflow amount
      | .invalidAmount => .invalidAmount amount
      | .insufficientBalance => .insufficientBalance
      | .response msg => .response 200 msg
    | none => .unexpectedResponse body
  | e => e

/-- Error mapping of `Client::poll_status` (src/src/lib.rs lines 149-163):
only `InvalidId`, `InsufficientBalance` and `Response` are translated; the
remaining classified kinds fall to the wildcard arm and stay
`UnexpectedResponse`. -/
def pollErrMap (c : Client) (e : Error) : Error :=
  match e with
  | .unexpectedResponse body =>
    match decodeVendorError body with
    | some m =>
      match classifyVendorError m with
      | .invalidId => .invalidId c.id
      | .insufficientBalance => .insufficientBalance
      | .response msg => .response 200 msg
      | _ => .unexpectedResponse body
    | none => .unexpectedResponse body
  | e => e

/-- Error mapping of `Client::trace_payment` (src/src/lib.rs lines 200-222):
a body decoding as the NotFound shape is answered by validating its own hash
against the canonical string "NotFound" (the Display form of
`status::NotFound`); otherwise the vendor-error path of `poll_status`. -/
def traceErrMap (c : Client) (merchantTrace : String) (e : Error) : Error :=
  match e with
  | .unexpectedResponse body =>
    match decodeNotFound body with
    | some h =>
      match validateHash c h "NotFound" with
      | .ok _ => .notFound merchantTrace
      | .error err => err
    | none =>
      match decodeVendorError body with
      | some m =>
        match classifyVendorError m with
        | .invalidId => .invalidId c.id
        | .insufficientBalance => .insufficientBalance
        | .response msg => .response 200 msg
        | _ => .unexpectedResponse body
      | none => .unexpectedResponse body
  | e => e

/-- Embedding of `Client::poll_status` (src/src/lib.rs lines 145-167).  The
network interaction is abstracted into `submitResult`: the outcome of
`Client::submit` decoding the body as an `Update`, with decode failures
carried by `Error.unexpectedResponse`. -/
def pollStatus (c : Client) (submitResult : Except Error Update) : Except Error Update :=
  match submitResult with
  | .error e => .error (pollErrMap c e)
  | .ok u =>
    match u.validate c with
    | .ok _ => .ok u
    | .error e => .error e

/-- The canonical string the outbound trace lookup signs
(src/src/lib.rs lines 186-191): id, merchant trace, the "Message" sentinel. -/
def traceCanonical (c : Client) (merchantTrace : String) : String :=
  toString c.id ++ merchantTrace ++ "Message"

/-- Embedding of `MerchantTrace` (src/src/status.rs lines 88-94); `status` is
the "Message" sentinel's wire string. -/
structure MerchantTrace where
  id : Nat
  merchant_trace : String
  status : String
  hash : String
deriving DecidableEq, BEq

/-- The outbound trace request built by `Client::trace_payment`
(src/src/lib.rs lines 180-192), with its signed hash. -/
def merchantTraceRequest (c : Client) (merchantTrace : String) : MerchantTrace :=
  { id := c.id, merchant_trace := merchantTrace, status := "Message",
    hash := clientHash c (traceCanonical c merchantTrace) }

/-- Embedding of `Client::trace_payment` (src/src/lib.rs lines 174-226),
with the network interaction abstracted into `submitResult` as in
`pollStatus`. -/
def tracePayment (c : Client) (merchantTrace : String)
    (submitResult : Except Error Update) : Except Error Update :=
  match submitResult with
  | .error e => .error (traceErrMap c merchantTrace e)
  | .ok u =>
    match u.validate c with
    | .ok _ => .ok u
    | .error e => .error e

/-- Specification-side canonical form of a standard payment, written from the
spec's field list: the adjacent join of id, reference, amount,
additionalinfo, returnurl, resulturl, authemail, tokenize, merchanttrace and
the literal "Message", with each absent optional field contributing "". -/
def concatPaymentSpec (p : Payment) : String :=
  String.join [toString p.id, p.reference, p.amount, p.additional_info.getD "",
    p.return_url.getD "", p.result_url, p.auth_email.getD "",
    (match p.tokenize with
     | some b => toString b
     | none => ""),
    p.merchant_trace.getD "", "Message"]

/-- Specification-side canonical form of a status update, written from the
spec's field list: the adjacent join of reference, vendor reference, amount,
status, poll URL, and the token followed by its `DDMonYYYY` expiry when
present or "" otherwise. -/
def updateCanonicalSpec (u : Update) : String :=
  String.join [u.reference, toString u.paynow_reference, u.amount, u.status.display, u.poll_url,
    (match u.token with
     | some t => t.token ++ formatDMY t.expiry
     | none => "")]

/-- Specification-side signing function: the canonical string with the raw
key value appended last and adjacent, digested with SHA-512 and rendered as
uppercase hexadecimal. -/
def signSpec (canonical key : String) : String :=
  hexUpper (sha512 (utf8Bytes (canonical ++ key)))

/-- A vendor error body `status=Error&error=<message>`. -/
def errBody (m : String) : FormBody := [("status", "Error"), ("error", m)]

/-- Surfacing of a classified vendor error by the payment submissions: every
classified kind becomes its structured error, the opaque kind keeping the
original message with code 200. -/
def paymentErrorSurface (c : Client) (amount : String) : PaymentError → Error
  | .invalidId => .invalidId c.id
  | .invalidAmount => .invalidAmount amount
  | .amountOverflow => .amountOverflow amount
  | .insufficientBalance => .insufficientBalance
  | .response msg => .response 200 msg

/-- Surfacing of a classified vendor error by poll_status and trace_payment:
invalid-amount and amount-overflow fall back to the raw UnexpectedResponse
instead of their structured kinds. -/
def statusErrorSurface (c : Client) (body : FormBody) : PaymentError → Error
  | .invalidId => .invalidId c.id
  | .insufficientBalance => .insufficientBalance
  | .response msg => .response 200 msg
  | .invalidAmount => .unexpectedResponse body
  | .amountOverflow => .unexpectedResponse body

/-- A concrete client for the concrete instances below. -/
def clientEx : Client := { id := 1, key := "3e9fed89-60e1-4ce5-ab6e-6b1eb2d4f977" }

/-- A concrete standard payment. -/
def paymentA : Payment :=
  { id := 1, reference := "REF-1", amount := "314.1874", additional_info := none,
    return_url := some "https://x/", result_url := "https://r/", auth_email := none,
    tokenize := none, merchant_trace := none }

/-- The same payment under a different merchant id. -/
def paymentB : Payment := { paymentA with id := 2 }

/-- A body carrying the literal status "Error" together with a hash field:
it does not decode as the trace NotFound shape, whose status literal is
"NotFound". -/
def bodyErrorWithHash : FormBody := [("status", "Error"), ("hash", "FF")]

/-- A concrete status update before signing (its hash field is empty, hence
wrong). -/
def updateBase : Update :=
  { reference := "REF-1", paynow_reference := 7, amount := "314.1874",
    status := Status.paid, poll_url := "https://poll/", token := none, hash := "" }

/-- The same update carrying the correct signature for `clientEx`. -/
def updateValid : Update :=
  { updateBase with hash := clientHash clientEx (updateCanonical updateBase) }

/-- C1: signature verification is exact — `validate_hash` succeeds on the
recomputed signature of the canonical string, succeeds only on it, and any
differing supplied signature surfaces as the `HashMismatch` error. -/
theorem validate_hash_exact (c : Client) (h m : String) :
    (validateHash c h m = Except.ok () ↔ h = clientHash c m) ∧
    validateHash c (clientHash c m) m = Except.ok () ∧
    (h ≠ clientHash c m → validateHash c h m = Except.error (Error.hashMismatch m)) := by
  unfold validateHash
  refine ⟨?_, by simp, fun hne => by simp [hne]⟩
  by_cases hc : h = clientHash c m <;> simp [hc]

/-- C2: `poll_status` and `trace_payment` return an update only when its
signature verifies against the client's key, and an update whose body parsed
but whose signature is forged is turned into the `HashMismatch` error, never
returned as a status. -/
theorem poll_trace_only_verified (c : Client) (r : Except Error Update)
    (mt : String) (u : Update) :
    (pollStatus c r = Except.ok u → u.validate c = Except.ok ()) ∧
    (tracePayment c mt r = Except.ok u → u.validate c = Except.ok ()) ∧
    (∀ v : Update, r = Except.ok v → v.hash ≠ clientHash c (updateCanonical v) →
      pollStatus c r = Except.error (Error.hashMismatch (updateCanonical v)) ∧
      tracePayment c mt r = Except.error (Error.hashMismatch (updateCanonical v))) := by
  refine ⟨?_, ?_, ?_⟩
  · cases r with
    | error e => simp [pollStatus]
    | ok v =>
      cases hval : v.validate c with
      | ok val => intro hok; simp [pollStatus, hval] at hok; simpa [← hok] using hval
      | error e => simp [pollStatus, hval]
  · cases r with
    | error e => simp [tracePayment]
    | ok v =>
      cases hval : v.validate c with
      | ok val => intro hok; simp [tracePayment, hval] at hok; simpa [← hok] using hval
      | error e => simp [tracePayment, hval]
  · intro v hr hbad
    subst hr
    have hval : v.validate c = Except.error (Error.hashMismatch (updateCanonical v)) := by
      simp [Update.validate, validateHash, hbad]
    exact ⟨by simp [pollStatus, hval], by simp [tracePayment, hval]⟩

/-- C2 instantiation: at a concrete client, a correctly signed update is
returned verified and the same update with an empty (forged) hash yields the
`HashMismatch` error. -/
theorem poll_trace_only_verified_witness :
    updateValid.validate clientEx = Except.ok () ∧
    pollStatus clientEx (Except.ok updateBase) =
      Except.error (Error.hashMismatch (updateCanonical updateBase)) :=
  ⟨(poll_trace_only_verified clientEx (Except.ok updateValid) "t-1" updateValid).1
      (by rfl),
   ((poll_trace_only_verified clientEx (Except.ok updateBase) "t-1" updateBase).2.2
      updateBase rfl (by decide)).1⟩

/-- C3: the status-update signature is checked against the adjacent
concatenation of reference, paynow reference, amount, status, poll URL and
the token followed by its `DDMonYYYY` expiry (empty when absent). -/
theorem update_signature_canonical (c : Client) (u : Update) :
    updateCanonical u = updateCanonicalSpec u ∧
    (u.validate c = Except.ok () ↔ u.hash = clientHash c (updateCanonicalSpec u)) := by
  have heq : updateCanonical u = updateCanonicalSpec u := by
    apply String.ext
    simp [updateCanonical, updateCanonicalSpec]
  refine ⟨heq, ?_⟩
  rw [Update.validate, ← heq]
  unfold validateHash
  by_cases hc : u.hash = clientHash c (updateCanonical u) <;> simp [hc]

/-- C4: the signed canonical string of a standard payment is the directly
adjacent concatenation of id, reference, amount, additionalinfo, returnurl,
resulturl, authemail, tokenize, merchanttrace and the literal "Message",
absent optional fields contributing the empty string. -/
theorem concat_payment_fields (p : Payment) :
    concatPayment p = concatPaymentSpec p := by
  apply String.ext
  simp [concatPayment, concatPaymentSpec]

/-- C5 counterexample: two standard payments (and two express payments)
identical except for the merchant id canonicalize differently, so payment
submissions do include the merchant id in the string that is signed. -/
theorem payment_canonical_depends_on_id :
    (concatPayment paymentA == concatPayment paymentB) = false ∧
    (concatExpressPayment (Method.ecocash "0771111111") paymentA ==
      concatExpressPayment (Method.ecocash "0771111111") paymentB) = false := by
  decide

/-- C5 amended: the trace lookup signs the merchant id (id, trace id,
"Message"), and the standard and express payment submissions also include
the merchant id, as the first payment field of their canonical strings. -/
theorem merchant_id_position (c : Client) (mt : String) (p : Payment) (m : Method) :
    traceCanonical c mt = toString c.id ++ (mt ++ "Message") ∧
    (merchantTraceRequest c mt).hash = clientHash c (toString c.id ++ (mt ++ "Message")) ∧
    concatPayment p = toString p.id ++ concatPaymentTail p ∧
    concatExpressPayment m p =
      m.name ++ (toString p.id ++ (concatPaymentTail p ++ concatMethodArgs (methodArgs m))) := by
  have h1 : traceCanonical c mt = toString c.id ++ (mt ++ "Message") := by
    apply String.ext
    simp [traceCanonical]
  have h2 : concatPayment p = toString p.id ++ concatPaymentTail p := by
    apply String.ext
    simp [concatPayment, concatPaymentTail]
  refine ⟨h1, by rw [merchantTraceRequest, h1], h2, ?_⟩
  apply String.ext
  simp [concatExpressPayment, concatPayment, concatPaymentTail]

/-- C6: the client's signing function appends the raw key value directly
after the canonical string (key last, no separator) and returns the SHA-512
digest rendered as uppercase hexadecimal; the digest agrees with the
official SHA-512 value on the "abc" test vector. -/
theorem client_hash_keyed_sha512 (c : Client) (msg : String) :
    clientHash c msg = signSpec msg c.key ∧
    clientHash { id := 0, key := "" } "abc" =
      "DDAF35A193617ABACC417349AE20413112E6FA4E89A97EA20A9EEEE64B55D39A2192992A274FC1A836BA3C23A3FEEBBD454D4423643CE80E2A9AC94FA54CA49F" := by
  exact ⟨rfl, by decide⟩

/-- C7: the express canonical string starts with the method name and, for the
phone methods, ends in the phone number; the concrete Ecocash and OneMoney
requests with phone "0771111111" sign to different digests. -/
theorem express_method_in_canonical (p : Payment) (phone : String) :
    concatExpressPayment (Method.ecocash phone) p = "ecocash" ++ (concatPayment p ++ phone) ∧
    concatExpressPayment (Method.onemoney phone) p = "onemoney" ++ (concatPayment p ++ phone) ∧
    (∃ s0 : String, concatExpressPayment (Method.ecocash phone) p = s0 ++ phone) ∧
    (expressRequestHash clientEx (Method.ecocash "0771111111") paymentA ==
      expressRequestHash clientEx (Method.onemoney "0771111111") paymentA) = false := by
  have h1 : concatExpressPayment (Method.ecocash phone) p =
      "ecocash" ++ (concatPayment p ++ phone) := by
    apply String.ext
    simp [concatExpressPayment, concatMethodArgs, methodArgs, Method.name]
  have h2 : concatExpressPayment (Method.onemoney phone) p =
      "onemoney" ++ (concatPayment p ++ phone) := by
    apply String.ext
    simp [concatExpressPayment, concatMethodArgs, methodArgs, Method.name]
  refine ⟨h1, h2, ⟨"ecocash" ++ concatPayment p, ?_⟩, by decide⟩
  rw [h1]
  apply String.ext
  simp

/-- C8 amended: a trace body decoding as the NotFound shape, whose status
literal is "NotFound", is answered with the `NotFound` error exactly when its
own hash verifies against the canonical string "NotFound"; otherwise the
call surfaces `HashMismatch`. -/
theorem trace_not_found_needs_own_hash (c : Client) (mt h : String) :
    (h = clientHash c "NotFound" →
      traceErrMap c mt (Error.unexpectedResponse [("status", "NotFound"), ("hash", h)]) =
        Error.notFound mt) ∧
    (h ≠ clientHash c "NotFound" →
      traceErrMap c mt (Error.unexpectedResponse [("status", "NotFound"), ("hash", h)]) =
        Error.hashMismatch "NotFound") ∧
    (∀ e : Error,
      tracePayment c mt (Except.error e) = Except.error (traceErrMap c mt e)) := by
  have hdec : decodeNotFound [("status", "NotFound"), ("hash", h)] = some h := rfl
  refine ⟨?_, ?_, fun e => rfl⟩
  · intro hok
    subst hok
    have hdec2 : decodeNotFound [("status", "NotFound"), ("hash", clientHash c "NotFound")] =
        some (clientHash c "NotFound") := rfl
    simp [traceErrMap, hdec2, validateHash]
  · intro hbad
    simp [traceErrMap, hdec, validateHash, hbad]

/-- C8 instantiation: with a concrete client, the NotFound shape carrying the
correct hash is answered NotFound, and carrying a wrong hash is answered
HashMismatch. -/
theorem trace_not_found_needs_own_hash_witness :
    traceErrMap clientEx "t-1"
        (Error.unexpectedResponse
          [("status", "NotFound"), ("hash", clientHash clientEx "NotFound")]) =
      Error.notFound "t-1" ∧
    traceErrMap clientEx "t-1"
        (Error.unexpectedResponse [("status", "NotFound"), ("hash", "FF")]) =
      Error.hashMismatch "NotFound" :=
  ⟨(trace_not_found_needs_own_hash clientEx "t-1" (clientHash clientEx "NotFound")).1 rfl,
   (trace_not_found_needs_own_hash clientEx "t-1" "FF").2.1 (by decide)⟩

/-- C8 counterexample: a body of the claimed shape `status=Error&hash=…`
does not decode as the trace NotFound shape at all — its hash does not
verify, yet the call keeps the raw `UnexpectedResponse` instead of returning
`HashMismatch` (or `NotFound`). -/
theorem trace_error_hash_shape_cex :
    traceErrMap clientEx "t-1" (Error.unexpectedResponse bodyErrorWithHash) =
      Error.unexpectedResponse bodyErrorWithHash ∧
    ((traceErrMap clientEx "t-1" (Error.unexpectedResponse bodyErrorWithHash)) ==
      Error.hashMismatch "NotFound") = false ∧
    ((traceErrMap clientEx "t-1" (Error.unexpectedResponse bodyErrorWithHash)) ==
      Error.notFound "t-1") = false := by
  decide

/-- C9 amended: a vendor error body decodes to its message; the four known
messages classify to their structured kinds and any other message to the
opaque kind carrying the message; payment submissions surface every kind,
while poll_status and trace_payment surface invalid-id, insufficient-balance
and the opaque kind but keep invalid-amount and amount-overflow as the raw
`UnexpectedResponse`. -/
theorem vendor_error_surfacing (c : Client) (amount m mt : String) :
    decodeVendorError (errBody m) = some m ∧
    classifyVendorError "Invalid Id." = PaymentError.invalidId ∧
    classifyVendorError "Invalid amount field." = PaymentError.invalidAmount ∧
    classifyVendorError "Conversion overflows." = PaymentError.amountOverflow ∧
    classifyVendorError "Insufficient balance" = PaymentError.insufficientBalance ∧
    (m ≠ "Invalid Id." → m ≠ "Invalid amount field." → m ≠ "Conversion overflows." →
      m ≠ "Insufficient balance" → classifyVendorError m = PaymentError.response m) ∧
    paymentErrMap c amount (Error.unexpectedResponse (errBody m)) =
      paymentErrorSurface c amount (classifyVendorError m) ∧
    pollErrMap c (Error.unexpectedResponse (errBody m)) =
      statusErrorSurface c (errBody m) (classifyVendorError m) ∧
    traceErrMap c mt (Error.unexpectedResponse (errBody m)) =
      statusErrorSurface c (errBody m) (classifyVendorError m) := by
  have hdec : decodeVendorError (errBody m) = some m := rfl
  have hnf : decodeNotFound (errBody m) = none := rfl
  refine ⟨hdec, rfl, rfl, rfl, rfl, ?_, ?_, ?_, ?_⟩
  · intro h1 h2 h3 h4
    simp [classifyVendorError, h1, h2, h3, h4]
  · cases hcl : classifyVendorError m <;>
      simp [paymentErrMap, hdec, hcl, paymentErrorSurface]
  · cases hcl : classifyVendorError m <;>
      simp [pollErrMap, hdec, hcl, statusErrorSurface]
  · cases hcl : classifyVendorError m <;>
      simp [traceErrMap, hdec, hnf, hcl, statusErrorSurface]

/-- C9 counterexample: poll_status receiving the vendor error "Invalid
amount field." keeps the raw `UnexpectedResponse` instead of surfacing the
invalid-amount error, and trace_payment does the same on "Conversion
overflows.". -/
theorem poll_invalid_amount_cex :
    pollErrMap clientEx (Error.unexpectedResponse (errBody "Invalid amount field.")) =
      Error.unexpectedResponse (errBody "Invalid amount field.") ∧
    ((pollErrMap clientEx (Error.unexpectedResponse (errBody "Invalid amount field."))) ==
      Error.invalidAmount "314.1874") = false ∧
    traceErrMap clientEx "t-1"
        (Error.unexpectedResponse (errBody "Conversion overflows.")) =
      Error.unexpectedResponse (errBody "Conversion overflows.") := by
  decide

/-- C10: every Status variant displays exactly as its wire serialization
(AwaitingDelivery as "Awaiting Delivery"), and deserializing the displayed
string returns the same variant — the canonicalized status string is the
wire string. -/
theorem status_wire_round_trip (s : Status) :
    s.display = s.wireName ∧ Status.ofWire s.display = some s := by
  cases s <;> exact ⟨rfl, rfl⟩

end Paynow

